import Mathlib

/-!
Shallow embedding of the query-routing RAG engine of `src/rag_utils.py`
(repository Kandor_Sales_Agent).

Modelling conventions:
* Python exceptions are modelled by the `Exc` inductive; fallible code
  returns `Except Exc α`.  A function that (in Python) lets an exception
  escape is embedded with result type `Except Exc α`; a function that
  catches everything (like `do_rag_query`) has a plain result type.
* The external collaborators (S3 object store, FAISS deserialization, the
  routing LLM, the answering LLM, `json.dumps`) are oracles collected in
  an `Env` record; the embedded functions are deterministic in `Env`.
* The module-level mutable caches `_vector_stores` and `_retriever_cache`
  are threaded explicitly through a `RagState` record, which additionally
  logs observable effects: the number of S3 downloads attempted
  (`storageLoads`), the number of retriever invocations
  (`retrieverInvocations`) and the list of document batches handed to the
  answer-generation chain (`generatorCalls`).
* A FAISS vector store is modelled as a ranked similarity search
  `search : String → Except Exc (List Document)` returning the full
  descending-similarity ranking; a retriever produced by
  `vs.as_retriever(search_kwargs={"k": k})` truncates that ranking to its
  first `k` elements when invoked.
-/

namespace RagUtils

/-- Python exception values reachable in `rag_utils.py`, each carrying its
`str(e)` rendering. `genericError` stands for any other `Exception`. -/
inductive Exc where
  | valueError (msg : String)
  | fileNotFoundError (msg : String)
  | permissionError (msg : String)
  | connectionError (msg : String)
  | genericError (msg : String)
deriving DecidableEq

/-- Python `str(e)` of an exception value. -/
def Exc.message : Exc → String
  | .valueError m => m
  | .fileNotFoundError m => m
  | .permissionError m => m
  | .connectionError m => m
  | .genericError m => m

/-- Failures of the boto3 `download_file` calls: either a botocore
`ClientError` (with its error code and `str(e)` text) or any other
exception, mirroring the two `except` clauses at lines 126-133. -/
inductive S3Failure where
  | clientError (code : String) (text : String)
  | otherError (e : Exc)
deriving DecidableEq

/-- Python `pat in s` substring test. -/
def strContains (s pat : String) : Bool :=
  decide (pat.data <:+: s.data)

/-- One retrievable document chunk (`langchain_core.documents.Document`);
metadata values are modelled as strings, with Python falsiness of a value
being emptiness. -/
structure Document where
  page_content : String
  metadata : List (String × String)
deriving DecidableEq

/-- A loaded FAISS vector store: its ranked similarity search.  The result
list is the full ranking of the partition chunks by descending similarity
to the query; errors model failures inside `similarity_search`. -/
structure Store where
  search : String → Except Exc (List Document)

/-- A `VectorStoreRetriever` as produced by
`vs.as_retriever(search_type="similarity", search_kwargs={"k": k})`. -/
structure VectorStoreRetriever where
  search : String → Except Exc (List Document)
  k : Nat

/-- External collaborators of `rag_utils.py`, fixed for a process run. -/
structure Env where
  /-- the `S3_BUCKET_NAME` environment variable -/
  bucket : String
  /-- downloading `index.faiss` and `index.pkl` under one storage
  location; `Except.ok` when both `download_file` calls succeed -/
  s3download : String → Except S3Failure Unit
  /-- `LCFAISS.load_local` on the downloaded artifacts of a location -/
  faissLoad : String → Except Exc Store
  /-- result of the n-th invocation of the routing chain
  (`prompt | routing_llm | StrOutputParser()`), n counted from 0 -/
  routerLLM : Nat → Except Exc String
  /-- the answer-generation chain applied to (context, question,
  user-profile JSON) -/
  answerLLM : String → String → String → Except Exc String
  /-- `json.dumps(profile, indent=2, default=str)` -/
  jsonDumps : List (String × String) → String

/-- The `VECTOR_STORE_IDS` registry (lines 46-52): descriptive partition
key mapped to the S3 prefix of its index artifacts. -/
def VECTOR_STORE_IDS : List (String × String) :=
  [("course_details_source1", "vs_course_details_with_outcomes"),
   ("professions_immigration", "vs_professions_data_immigration"),
   ("professions_jobs", "vs_professions_data_with_jobs"),
   ("university_details", "vs_processed_data_university"),
   ("course_details_source2", "vs_course_details_with_outcomes_second_source")]

/-- The registry key set, `list(VECTOR_STORE_IDS.keys())`. -/
def vectorStoreKeys : List String := VECTOR_STORE_IDS.map Prod.fst

def DEFAULT_TOP_K : Nat := 5

/-- Python dict lookup on an association list (first binding wins). -/
def alookup {α : Type} (m : List (String × α)) (key : String) : Option α :=
  (m.find? (fun p => p.1 == key)).map Prod.snd

/-- Python dict assignment `m[key] = v`, modelled so that `alookup`
afterwards returns `v` for `key` and is unchanged on other keys. -/
def ainsert {α : Type} (m : List (String × α)) (key : String) (v : α) :
    List (String × α) :=
  (key, v) :: m

/-- `VECTOR_STORE_IDS[vector_store_id]` guarded by the membership check of
line 96. -/
def registryLookup (vector_store_id : String) : Option String :=
  alookup VECTOR_STORE_IDS vector_store_id

/-- The process-wide mutable state of `rag_utils.py`: the two caches, plus
an observable effect log (S3 download attempts, retriever invocations and
the document batches passed to the answer-generation chain). -/
structure RagState where
  vectorStores : List (String × Option Store)
  retrieverCache : List (String × VectorStoreRetriever)
  storageLoads : Nat
  retrieverInvocations : Nat
  generatorCalls : List (List Document)

/-- The state at interpreter start: both caches empty, nothing logged. -/
def initialState : RagState :=
  { vectorStores := [], retrieverCache := [], storageLoads := 0,
    retrieverInvocations := 0, generatorCalls := [] }

/-- Translation of S3 failures performed by the `except` clauses of
`load_faiss_vector_store` (lines 126-133): a `ClientError` whose code is
`NoSuchKey`, or whose text mentions `NotFound`, becomes a
`FileNotFoundError`; any other `ClientError` becomes a `ConnectionError`;
any other exception is re-raised unchanged. -/
def translateS3Error (bucket vector_store_id loc : String) :
    S3Failure → Exc
  | .clientError code text =>
      if code == "NoSuchKey" || strContains text "NotFound" then
        .fileNotFoundError ("FAISS files not found for \x27" ++
          vector_store_id ++ "\x27 at s3://" ++ bucket ++ "/" ++ loc ++ "/")
      else
        .connectionError ("Failed S3 connect/download for \x27" ++
          vector_store_id ++ "\x27: " ++ text)
  | .otherError e => e

/-- The `ValueError` text of line 97. -/
def unknownIdMessage (vector_store_id : String) : String :=
  "Unknown vector_store_id: " ++ vector_store_id ++
    ". Available IDs: [\x27course_details_source1\x27, \x27professions_immigration\x27, \x27professions_jobs\x27, \x27university_details\x27, \x27course_details_source2\x27]"

/-- `load_faiss_vector_store` (lines 89-145).  Serves a cached store when
the cache holds a non-`None` entry; otherwise validates the id against the
registry, downloads the artifacts and deserializes them, caching the store
only on success.  Note: in the source the statement
`_vector_stores[vector_store_id] = None` inside the final `except` block
is dead code, because a bare `raise` precedes it on the same line as the
logging call; the failure paths therefore leave the cache untouched. -/
def load_faiss_vector_store (env : Env) (vector_store_id : String)
    (st : RagState) : Except Exc Store × RagState :=
  match alookup st.vectorStores vector_store_id with
  | some (some vs) => (.ok vs, st)
  | _ =>
    match registryLookup vector_store_id with
    | none =>
        (.error (.valueError (unknownIdMessage vector_store_id)), st)
    | some loc =>
        let st1 := { st with storageLoads := st.storageLoads + 1 }
        match env.s3download loc with
        | .error f =>
            (.error (translateS3Error env.bucket vector_store_id loc f), st1)
        | .ok _ =>
            match env.faissLoad loc with
            | .error e => (.error e, st1)
            | .ok vs =>
                (.ok vs,
                 { st1 with vectorStores :=
                     ainsert st1.vectorStores vector_store_id (some vs) })

/-- The store a cold (cache-missing) load of `vector_store_id` would
produce under `env`: the reference value for cache well-formedness. -/
def storeOf (env : Env) (vector_store_id : String) : Except Exc Store :=
  match registryLookup vector_store_id with
  | none =>
      .error (.valueError (unknownIdMessage vector_store_id))
  | some loc =>
      match env.s3download loc with
      | .error f => .error (translateS3Error env.bucket vector_store_id loc f)
      | .ok _ => env.faissLoad loc

/-- The retriever-cache key `f"{vector_store_id}_k{k}"` (line 158). -/
def retrieverCacheKey (vector_store_id : String) (k : Nat) : String :=
  vector_store_id ++ "_k" ++ toString k

/-- `get_faiss_retriever` (lines 147-172): per-`(vector_store_id, k)`
retriever cache in front of `load_faiss_vector_store`. -/
def get_faiss_retriever (env : Env) (vector_store_id : String) (k : Nat)
    (st : RagState) : Except Exc VectorStoreRetriever × RagState :=
  match alookup st.retrieverCache (retrieverCacheKey vector_store_id k) with
  | some r => (.ok r, st)
  | none =>
    match load_faiss_vector_store env vector_store_id st with
    | (.error e, st1) => (.error e, st1)
    | (.ok vs, st1) =>
        let r : VectorStoreRetriever := { search := vs.search, k := k }
        (.ok r,
         { st1 with retrieverCache :=
             ainsert st1.retrieverCache (retrieverCacheKey vector_store_id k) r })

/-- The apostrophe character, `chr(39)`. -/
def quoteChar : Char := Char.ofNat 39

/-- The double-quote character, `chr(34)`. -/
def dquoteChar : Char := Char.ofNat 34

/-- Python `str.strip()`: drop leading and trailing whitespace. -/
def pythonStrip (s : String) : String :=
  String.mk
    (((s.data.dropWhile Char.isWhitespace).reverse.dropWhile
        Char.isWhitespace).reverse)

/-- Python `str.replace(c, "")`: delete every occurrence of character `c`. -/
def removeAllChar (c : Char) (s : String) : String :=
  String.mk (s.data.filter (fun a => a != c))

/-- Line 243: `llm_response.strip().replace("'", "").replace('"', '')`. -/
def cleanRouterOutput (s : String) : String :=
  removeAllChar dquoteChar (removeAllChar quoteChar (pythonStrip s))

/-- Lines 243-259: clean the raw router LLM output, accept an exact
registry key, else fall back to mapping a registry value (S3 prefix) back
to its key, else fail with `none`. -/
def parseRouterResponse (llm_response : String) : Option String :=
  let chosen_key := cleanRouterOutput llm_response
  if vectorStoreKeys.contains chosen_key then
    some chosen_key
  else
    match VECTOR_STORE_IDS.find? (fun p => p.2 == chosen_key) with
    | some p => some p.1
    | none => none

/-- One attempt of the body of `route_query_to_store` (lines 207-263): the
`chain.invoke` outcome is supplied by the oracle, and the surrounding
`try`/`except Exception` turns every raised exception into a `None`
return.  The statements before the `try` (LLM handle and prompt
construction) cannot raise, so an attempt never raises. -/
def routeAttempt (oracle : Nat → Except Exc String) (n : Nat) :
    Except Exc (Option String) :=
  match oracle n with
  | .error _ => .ok none
  | .ok resp => .ok (parseRouterResponse resp)

/-- The tenacity decorator `@retry(stop=stop_after_attempt(2),
wait=wait_random_exponential(multiplier=1, max=10))`: re-invokes the body
only when the body raises, making at most two attempts.  The second
component counts the attempts actually made (each attempt performs
exactly one routing-LLM call). -/
def tenacityTwoAttempts (body : Nat → Except Exc (Option String)) :
    Except Exc (Option String) × Nat :=
  match body 0 with
  | .ok v => (.ok v, 1)
  | .error _ =>
      match body 1 with
      | .ok v => (.ok v, 2)
      | .error e => (.error e, 2)

/-- `route_query_to_store` as seen by callers: the decorated function. -/
def route_query_to_store (oracle : Nat → Except Exc String) :
    Except Exc (Option String) × Nat :=
  tenacityTwoAttempts (routeAttempt oracle)

/-- Line 275: the metadata keys probed, in order, for a source id. -/
def source_id_keys : List String :=
  ["university_id", "profession_id", "course_id", "serial_no", "source_file"]

/-- The `for key in source_id_keys` loop of lines 277-282: the first key
present with a truthy (non-empty) value wins and breaks; the `elif` keeps
a `source:`-style fallback for a present-but-falsy `source_file`. -/
def pickSourceId : List String → List (String × String) → String → String
  | [], _, acc => acc
  | key :: rest, md, acc =>
    match alookup md key with
    | some v =>
        if v != "" then key ++ ": " ++ v
        else if key == "source_file" then
          pickSourceId rest md ("source: " ++ v)
        else pickSourceId rest md acc
    | none => pickSourceId rest md acc

/-- Formatting of one document block (lines 272-295).  The
`content_snippet` local of line 286 is computed but never used by the
source, so it is omitted here. -/
def formatOneDoc (i : Nat) (doc : Document) : String :=
  let content := (alookup doc.metadata "blurb_text").getD doc.page_content
  let source_id := pickSourceId source_id_keys doc.metadata "N/A"
  "--- Document " ++ toString (i + 1) ++ " ---\n" ++
  "Source Info: " ++ source_id ++ "\n\n" ++
  "Content Chunk:\n" ++ content ++ "\n" ++
  "--- End Document " ++ toString (i + 1) ++ " ---"

/-- `format_retrieved_docs` (lines 266-296). -/
def format_retrieved_docs (docs : List Document) : String :=
  if docs.isEmpty then
    "No relevant documents found in the specified knowledge base."
  else
    String.intercalate "\n\n"
      (docs.enum.map (fun p => formatOneDoc p.1 p.2))

/-- Line 333. -/
def routingFailureMessage : String :=
  "Sorry, I could not determine the relevant knowledge base for your query."

/-- Line 351. -/
def kbUnavailableMessage (vector_store_id : String) : String :=
  "Error: The knowledge base \x27" ++ vector_store_id ++
    "\x27 is currently unavailable."

/-- Line 354. -/
def kbRetrieveErrorMessage (vector_store_id : String) : String :=
  "Error: Could not retrieve information from the \x27" ++ vector_store_id ++
    "\x27 knowledge base."

/-- Line 404: note the raw `str(e)` appended after `Details:`. -/
def loadFailureMessage (e : Exc) : String :=
  "Error: Could not load/access required knowledge base files. Details: " ++
    e.message

/-- Line 407: note the raw `str(e)` appended after `Details:`. -/
def unexpectedErrorMessage (e : Exc) : String :=
  "Sorry, an unexpected error occurred processing your request. Details: " ++
    e.message

/-- The two `except` clauses at the bottom of `do_rag_query`
(lines 401-407). -/
def outerExceptHandler (e : Exc) : String :=
  match e with
  | .fileNotFoundError _ => loadFailureMessage e
  | .permissionError _ => loadFailureMessage e
  | .connectionError _ => loadFailureMessage e
  | _ => unexpectedErrorMessage e

/-- The body of the big `try` of `do_rag_query` (lines 317-399); an
`Except.error` result is an exception escaping to the outer handlers.
Control-flow notes, matching the source:
* `if not chosen_vector_store_id:` is falsy for both `None` and `""`;
* `get_faiss_retriever` (line 340) is invoked OUTSIDE the inner
  `try` of lines 347-354, so loading failures escape to the outer
  handlers rather than producing the partition-specific messages;
* the retriever invocation truncates the store ranking to `k` documents. -/
def do_rag_query_try (env : Env) (user_query : String)
    (user_profile : Option (List (String × String))) (top_k : Nat)
    (st : RagState) : Except Exc String × RagState :=
  match (route_query_to_store env.routerLLM).1 with
  | .error e => (.error e, st)
  | .ok chosenOpt =>
    match chosenOpt with
    | none => (.ok routingFailureMessage, st)
    | some chosen =>
      if chosen == "" then (.ok routingFailureMessage, st)
      else
        match get_faiss_retriever env chosen top_k st with
        | (.error e, st1) => (.error e, st1)
        | (.ok retriever, st1) =>
          let st2 := { st1 with
            retrieverInvocations := st1.retrieverInvocations + 1 }
          match retriever.search user_query with
          | .error (.fileNotFoundError _) =>
              (.ok (kbUnavailableMessage chosen), st2)
          | .error _ =>
              (.ok (kbRetrieveErrorMessage chosen), st2)
          | .ok ranked =>
            let final_docs := ranked.take retriever.k
            let context_str := format_retrieved_docs final_docs
            let user_profile_str := env.jsonDumps (user_profile.getD [])
            let st3 := { st2 with
              generatorCalls := st2.generatorCalls ++ [final_docs] }
            match env.answerLLM context_str user_query user_profile_str with
            | .ok response => (.ok response, st3)
            | .error e => (.error e, st3)

/-- `do_rag_query` (lines 300-407): the try body with the two outer
`except` clauses, which translate every escaped exception into a string. -/
def do_rag_query (env : Env) (user_query : String)
    (user_profile : Option (List (String × String))) (top_k : Nat)
    (st : RagState) : String × RagState :=
  match do_rag_query_try env user_query user_profile top_k st with
  | (.ok s, st1) => (s, st1)
  | (.error e, st1) => (outerExceptHandler e, st1)

/-- The shapes a `do_rag_query` result string can take when the pipeline
did not complete: the five failure return sites of the source. -/
def isFailureAnswer (ans : String) : Prop :=
  ans = routingFailureMessage ∨
  (∃ id, ans = kbUnavailableMessage id) ∨
  (∃ id, ans = kbRetrieveErrorMessage id) ∨
  (∃ e, ans = outerExceptHandler e)

/-! Concrete environments and states used by witnesses and
counterexamples. -/

/-- A small concrete store with two chunks. -/
def storeW : Store :=
  ⟨fun _ => .ok
    [⟨"chunk one", [("university_id", "U1")]⟩,
     ⟨"chunk two", [("course_id", "C7")]⟩]⟩

/-- A fully healthy environment whose router always picks
`university_details`. -/
def envOk : Env :=
  { bucket := "bkt"
    s3download := fun _ => .ok ()
    faissLoad := fun _ => .ok storeW
    routerLLM := fun _ => .ok "university_details"
    answerLLM := fun _ q _ => .ok ("answer about " ++ q)
    jsonDumps := fun _ => "\x7b\x7d" }

/-- Like `envOk` but the answer-generation chain raises. -/
def envGenFail : Env :=
  { envOk with answerLLM := fun _ _ _ => .error (.genericError "boom") }

/-- Like `envOk` but the S3 download fails with a `NoSuchKey`
`ClientError`, so the chosen partition index cannot be loaded. -/
def envLoadFail : Env :=
  { envOk with
    s3download := fun _ => .error (.clientError "NoSuchKey" "An error occurred (NoSuchKey)") }

/-- Like `envOk` but every routing-LLM call raises, so routing fails. -/
def envRouteFail : Env :=
  { envOk with
    routerLLM := fun _ => .error (.connectionError "Connection aborted") }

/-- A routing oracle that raises a transport error on the first call and
would answer with a valid key on the second. -/
def flakyRouterOracle : Nat → Except Exc String :=
  fun n => if n == 0 then .error (.connectionError "Read timed out")
           else .ok "university_details"

/-- A state in which `university_details` is already cached. -/
def cachedStateW : RagState :=
  { initialState with vectorStores := [("university_details", some storeW)] }

/-! Helper lemmas. -/

set_option maxRecDepth 8000

theorem alookup_ainsert {α : Type} (m : List (String × α)) (key : String)
    (v : α) : alookup (ainsert m key v) key = some v := by
  simp [alookup, ainsert, List.find?]

theorem parse_exact_key (resp : String)
    (hc : vectorStoreKeys.contains (cleanRouterOutput resp) = true) :
    parseRouterResponse resp = some (cleanRouterOutput resp) := by
  have hm : cleanRouterOutput resp ∈ vectorStoreKeys :=
    List.mem_of_elem_eq_true hc
  simp [parseRouterResponse, hm]

theorem parse_fallback (resp id loc : String)
    (hmem : (id, loc) ∈ VECTOR_STORE_IDS)
    (hloc : cleanRouterOutput resp = loc) :
    parseRouterResponse resp = some id := by
  simp only [parseRouterResponse, hloc]
  fin_cases hmem <;> decide

theorem parse_invalid_none (resp : String)
    (hc : vectorStoreKeys.contains (cleanRouterOutput resp) = false)
    (hall : ∀ p ∈ VECTOR_STORE_IDS, p.2 ≠ cleanRouterOutput resp) :
    parseRouterResponse resp = none := by
  have hfind : VECTOR_STORE_IDS.find?
      (fun p => p.2 == cleanRouterOutput resp) = none := by
    rw [List.find?_eq_none]
    intro p hp
    simpa using hall p hp
  have hm : cleanRouterOutput resp ∉ vectorStoreKeys := by
    intro hmem
    have ht : vectorStoreKeys.contains (cleanRouterOutput resp) = true :=
      List.elem_eq_true_of_mem hmem
    rw [ht] at hc
    cases hc
  simp [parseRouterResponse, hm, hfind]

theorem parse_some_mem (resp k : String)
    (h : parseRouterResponse resp = some k) : k ∈ vectorStoreKeys := by
  simp only [parseRouterResponse] at h
  split at h
  · next hc =>
      cases h
      exact List.mem_of_elem_eq_true hc
  · next =>
      split at h
      · next p hp =>
          cases h
          exact List.mem_map_of_mem Prod.fst (List.mem_of_find?_eq_some hp)
      · cases h

theorem routeAttempt_some_mem (oracle : Nat → Except Exc String) (n : Nat)
    (k : String) (h : routeAttempt oracle n = .ok (some k)) :
    k ∈ vectorStoreKeys := by
  unfold routeAttempt at h
  cases ho : oracle n <;> rw [ho] at h
  · cases h
  · exact parse_some_mem _ k (Except.ok.inj h)

theorem route_some_mem (oracle : Nat → Except Exc String) (k : String)
    (n : Nat) (h : route_query_to_store oracle = (.ok (some k), n)) :
    k ∈ vectorStoreKeys := by
  unfold route_query_to_store tenacityTwoAttempts at h
  cases h0 : routeAttempt oracle 0 with
  | ok v =>
      simp only [h0, Prod.mk.injEq] at h
      exact routeAttempt_some_mem oracle 0 k (by rw [h0, Except.ok.inj h.1])
  | error e =>
      simp only [h0] at h
      cases h1 : routeAttempt oracle 1 with
      | ok v =>
          simp only [h1, Prod.mk.injEq] at h
          exact routeAttempt_some_mem oracle 1 k
            (by rw [h1, Except.ok.inj h.1])
      | error e2 =>
          simp only [h1, Prod.mk.injEq] at h
          exact Except.noConfusion h.1

theorem load_eq_hit (env : Env) (vid : String) (st : RagState) (vs : Store)
    (h : alookup st.vectorStores vid = some (some vs)) :
    load_faiss_vector_store env vid st = (.ok vs, st) := by
  unfold load_faiss_vector_store
  rw [h]

theorem load_eq_unknown (env : Env) (vid : String) (st : RagState)
    (hc : ∀ vs, alookup st.vectorStores vid ≠ some (some vs))
    (hreg : registryLookup vid = none) :
    load_faiss_vector_store env vid st =
      (.error (.valueError (unknownIdMessage vid)), st) := by
  rcases hcase : alookup st.vectorStores vid with _ | ovs
  · unfold load_faiss_vector_store
    rw [hcase, hreg]
  · rcases ovs with _ | vs
    · unfold load_faiss_vector_store
      rw [hcase, hreg]
    · exact absurd hcase (hc vs)

theorem load_eq_dlfail (env : Env) (vid : String) (st : RagState)
    (loc : String) (f : S3Failure)
    (hc : ∀ vs, alookup st.vectorStores vid ≠ some (some vs))
    (hreg : registryLookup vid = some loc)
    (hdl : env.s3download loc = .error f) :
    load_faiss_vector_store env vid st =
      (.error (translateS3Error env.bucket vid loc f),
       { st with storageLoads := st.storageLoads + 1 }) := by
  rcases hcase : alookup st.vectorStores vid with _ | ovs
  · simp only [load_faiss_vector_store, hcase, hreg, hdl]
  · rcases ovs with _ | vs
    · simp only [load_faiss_vector_store, hcase, hreg, hdl]
    · exact absurd hcase (hc vs)

theorem load_eq_faissfail (env : Env) (vid : String) (st : RagState)
    (loc : String) (e : Exc)
    (hc : ∀ vs, alookup st.vectorStores vid ≠ some (some vs))
    (hreg : registryLookup vid = some loc)
    (hdl : env.s3download loc = .ok ())
    (hfl : env.faissLoad loc = .error e) :
    load_faiss_vector_store env vid st =
      (.error e, { st with storageLoads := st.storageLoads + 1 }) := by
  rcases hcase : alookup st.vectorStores vid with _ | ovs
  · simp only [load_faiss_vector_store, hcase, hreg, hdl, hfl]
  · rcases ovs with _ | vs
    · simp only [load_faiss_vector_store, hcase, hreg, hdl, hfl]
    · exact absurd hcase (hc vs)

theorem load_eq_ok (env : Env) (vid : String) (st : RagState)
    (loc : String) (vs : Store)
    (hc : ∀ vs0, alookup st.vectorStores vid ≠ some (some vs0))
    (hreg : registryLookup vid = some loc)
    (hdl : env.s3download loc = .ok ())
    (hfl : env.faissLoad loc = .ok vs) :
    load_faiss_vector_store env vid st =
      (.ok vs, { st with storageLoads := st.storageLoads + 1, vectorStores := ainsert st.vectorStores vid (some vs) }) := by
  rcases hcase : alookup st.vectorStores vid with _ | ovs
  · simp only [load_faiss_vector_store, hcase, hreg, hdl, hfl]
  · rcases ovs with _ | vs0
    · simp only [load_faiss_vector_store, hcase, hreg, hdl, hfl]
    · exact absurd hcase (hc vs0)

theorem load_cached_after (env : Env) (vid : String) (st : RagState)
    (vs : Store) (st1 : RagState)
    (h : load_faiss_vector_store env vid st = (.ok vs, st1)) :
    alookup st1.vectorStores vid = some (some vs) := by
  by_cases hhit : ∃ vs0, alookup st.vectorStores vid = some (some vs0)
  · obtain ⟨vs0, hvs0⟩ := hhit
    rw [load_eq_hit env vid st vs0 hvs0, Prod.mk.injEq] at h
    obtain ⟨h1, h2⟩ := h
    rw [← h2, ← Except.ok.inj h1]
    exact hvs0
  · push_neg at hhit
    rcases hreg : registryLookup vid with _ | loc
    · rw [load_eq_unknown env vid st hhit hreg, Prod.mk.injEq] at h
      exact Except.noConfusion h.1
    · cases hdl : env.s3download loc with
      | ok u =>
        cases u
        cases hfl : env.faissLoad loc with
        | ok vs1 =>
          rw [load_eq_ok env vid st loc vs1 hhit hreg hdl hfl,
            Prod.mk.injEq] at h
          obtain ⟨h1, h2⟩ := h
          rw [← h2, ← Except.ok.inj h1]
          exact alookup_ainsert _ _ _
        | error e =>
          rw [load_eq_faissfail env vid st loc e hhit hreg hdl hfl,
            Prod.mk.injEq] at h
          exact Except.noConfusion h.1
      | error f =>
        rw [load_eq_dlfail env vid st loc f hhit hreg hdl,
          Prod.mk.injEq] at h
        exact Except.noConfusion h.1

theorem get_retriever_hit (env : Env) (vid : String) (k : Nat)
    (st : RagState) (r : VectorStoreRetriever)
    (h : alookup st.retrieverCache (retrieverCacheKey vid k) = some r) :
    get_faiss_retriever env vid k st = (.ok r, st) := by
  unfold get_faiss_retriever
  rw [h]

theorem get_eq_miss (env : Env) (vid : String) (k : Nat) (st : RagState)
    (hc : alookup st.retrieverCache (retrieverCacheKey vid k) = none) :
    get_faiss_retriever env vid k st =
      match load_faiss_vector_store env vid st with
      | (.error e, st1) => (.error e, st1)
      | (.ok vs, st1) =>
          (.ok (VectorStoreRetriever.mk vs.search k),
           { st1 with retrieverCache := ainsert st1.retrieverCache (retrieverCacheKey vid k) (VectorStoreRetriever.mk vs.search k) }) := by
  unfold get_faiss_retriever
  rw [hc]

theorem get_retriever_cached_after (env : Env) (vid : String) (k : Nat)
    (st : RagState) (r : VectorStoreRetriever) (st1 : RagState)
    (h : get_faiss_retriever env vid k st = (.ok r, st1)) :
    alookup st1.retrieverCache (retrieverCacheKey vid k) = some r := by
  cases hc : alookup st.retrieverCache (retrieverCacheKey vid k) with
  | some r0 =>
      rw [get_retriever_hit env vid k st r0 hc, Prod.mk.injEq] at h
      obtain ⟨h1, h2⟩ := h
      rw [← h2, ← Except.ok.inj h1]
      exact hc
  | none =>
      rw [get_eq_miss env vid k st hc] at h
      rcases hload : load_faiss_vector_store env vid st with ⟨res, st2⟩
      rw [hload] at h
      cases res with
      | error e =>
          simp only [Prod.mk.injEq] at h
          exact Except.noConfusion h.1
      | ok vs =>
          simp only [Prod.mk.injEq] at h
          obtain ⟨h1, h2⟩ := h
          rw [← h2, ← Except.ok.inj h1]
          exact alookup_ainsert _ _ _

theorem load_preserves_logs (env : Env) (vid : String) (st : RagState) :
    (load_faiss_vector_store env vid st).2.generatorCalls =
        st.generatorCalls ∧
    (load_faiss_vector_store env vid st).2.retrieverInvocations =
        st.retrieverInvocations := by
  by_cases hhit : ∃ vs0, alookup st.vectorStores vid = some (some vs0)
  · obtain ⟨vs0, hvs0⟩ := hhit
    rw [load_eq_hit env vid st vs0 hvs0]
    exact ⟨rfl, rfl⟩
  · push_neg at hhit
    rcases hreg : registryLookup vid with _ | loc
    · rw [load_eq_unknown env vid st hhit hreg]
      exact ⟨rfl, rfl⟩
    · cases hdl : env.s3download loc with
      | ok u =>
        cases u
        cases hfl : env.faissLoad loc with
        | ok vs1 =>
          rw [load_eq_ok env vid st loc vs1 hhit hreg hdl hfl]
          exact ⟨rfl, rfl⟩
        | error e1 =>
          rw [load_eq_faissfail env vid st loc e1 hhit hreg hdl hfl]
          exact ⟨rfl, rfl⟩
      | error f =>
        rw [load_eq_dlfail env vid st loc f hhit hreg hdl]
        exact ⟨rfl, rfl⟩

theorem get_preserves_logs (env : Env) (vid : String) (k : Nat)
    (st : RagState) :
    (get_faiss_retriever env vid k st).2.generatorCalls =
        st.generatorCalls ∧
    (get_faiss_retriever env vid k st).2.retrieverInvocations =
        st.retrieverInvocations := by
  cases hc : alookup st.retrieverCache (retrieverCacheKey vid k) with
  | some r =>
      rw [get_retriever_hit env vid k st r hc]
      exact ⟨rfl, rfl⟩
  | none =>
      rw [get_eq_miss env vid k st hc]
      have hl := load_preserves_logs env vid st
      rcases hload : load_faiss_vector_store env vid st with ⟨res, st2⟩
      rw [hload] at hl
      cases res with
      | error e => exact hl
      | ok vs => exact hl

theorem load_ok_storeOf (env : Env) (vid : String) (st : RagState)
    (vs : Store) (st1 : RagState)
    (hvs : ∀ vs0, alookup st.vectorStores vid = some (some vs0) →
        storeOf env vid = .ok vs0)
    (h : load_faiss_vector_store env vid st = (.ok vs, st1)) :
    storeOf env vid = .ok vs := by
  by_cases hhit : ∃ vs0, alookup st.vectorStores vid = some (some vs0)
  · obtain ⟨vs0, hvs0⟩ := hhit
    rw [load_eq_hit env vid st vs0 hvs0, Prod.mk.injEq] at h
    rw [← Except.ok.inj h.1]
    exact hvs vs0 hvs0
  · push_neg at hhit
    rcases hreg : registryLookup vid with _ | loc
    · rw [load_eq_unknown env vid st hhit hreg, Prod.mk.injEq] at h
      exact Except.noConfusion h.1
    · cases hdl : env.s3download loc with
      | ok u =>
        cases u
        cases hfl : env.faissLoad loc with
        | ok vs1 =>
          rw [load_eq_ok env vid st loc vs1 hhit hreg hdl hfl,
            Prod.mk.injEq] at h
          rw [← Except.ok.inj h.1]
          simp only [storeOf, hreg, hdl, hfl]
        | error e1 =>
          rw [load_eq_faissfail env vid st loc e1 hhit hreg hdl hfl,
            Prod.mk.injEq] at h
          exact Except.noConfusion h.1
      | error f =>
        rw [load_eq_dlfail env vid st loc f hhit hreg hdl,
          Prod.mk.injEq] at h
        exact Except.noConfusion h.1

theorem get_retriever_ok_spec (env : Env) (vid : String) (k : Nat)
    (st : RagState)
    (hrc : ∀ r, alookup st.retrieverCache (retrieverCacheKey vid k) =
        some r →
        ∃ vs, storeOf env vid = .ok vs ∧
          r = VectorStoreRetriever.mk vs.search k)
    (hvs : ∀ vs0, alookup st.vectorStores vid = some (some vs0) →
        storeOf env vid = .ok vs0) :
    ∀ r st1, get_faiss_retriever env vid k st = (.ok r, st1) →
      ∃ vs, storeOf env vid = .ok vs ∧ r.search = vs.search ∧ r.k = k := by
  intro r st1 h
  cases hc : alookup st.retrieverCache (retrieverCacheKey vid k) with
  | some r0 =>
      rw [get_retriever_hit env vid k st r0 hc, Prod.mk.injEq] at h
      obtain ⟨vs, hst, hr⟩ := hrc r0 hc
      have hrr : r0 = r := Except.ok.inj h.1
      subst hrr
      subst hr
      exact ⟨vs, hst, rfl, rfl⟩
  | none =>
      rw [get_eq_miss env vid k st hc] at h
      rcases hload : load_faiss_vector_store env vid st with ⟨res, st2⟩
      rw [hload] at h
      cases res with
      | error e =>
          simp only [Prod.mk.injEq] at h
          exact Except.noConfusion h.1
      | ok vs =>
          simp only [Prod.mk.injEq] at h
          have hr := Except.ok.inj h.1
          have hst : storeOf env vid = .ok vs :=
            load_ok_storeOf env vid st vs st2 hvs hload
          subst hr
          exact ⟨vs, hst, rfl, rfl⟩

theorem do_rag_query_try_shape (env : Env) (q : String)
    (p : Option (List (String × String))) (k : Nat) (st : RagState) :
    (∃ e, (do_rag_query_try env q p k st).1 = .error e) ∨
    (do_rag_query_try env q p k st).1 = .ok routingFailureMessage ∨
    (∃ id, (do_rag_query_try env q p k st).1 =
        .ok (kbUnavailableMessage id)) ∨
    (∃ id, (do_rag_query_try env q p k st).1 =
        .ok (kbRetrieveErrorMessage id)) ∨
    (∃ ctx prof s, env.answerLLM ctx q prof = .ok s ∧
        (do_rag_query_try env q p k st).1 = .ok s) := by
  unfold do_rag_query_try
  split
  · exact Or.inl ⟨_, rfl⟩
  · split
    · exact Or.inr (Or.inl rfl)
    · split
      · exact Or.inr (Or.inl rfl)
      · split
        · exact Or.inl ⟨_, rfl⟩
        · split
          · exact Or.inr (Or.inr (Or.inl ⟨_, rfl⟩))
          · exact Or.inr (Or.inr (Or.inr (Or.inl ⟨_, rfl⟩)))
          · dsimp only
            split
            · next response hresp =>
                exact Or.inr (Or.inr (Or.inr (Or.inr
                  ⟨_, _, response, hresp, rfl⟩)))
            · exact Or.inl ⟨_, rfl⟩

theorem do_rag_query_shape (env : Env) (q : String)
    (p : Option (List (String × String))) (k : Nat) (st : RagState) :
    isFailureAnswer (do_rag_query env q p k st).1 ∨
    (∃ ctx prof, env.answerLLM ctx q prof =
        .ok (do_rag_query env q p k st).1) := by
  have hs := do_rag_query_try_shape env q p k st
  unfold do_rag_query
  rcases htry : do_rag_query_try env q p k st with ⟨res, st1⟩
  rw [htry] at hs
  cases res with
  | ok s =>
      rcases hs with ⟨e, he⟩ | he | ⟨id, he⟩ | ⟨id, he⟩ |
        ⟨ctx, prof, s0, hans, he⟩
      · exact Except.noConfusion he
      · exact Or.inl (Or.inl (Except.ok.inj he))
      · exact Or.inl (Or.inr (Or.inl ⟨id, Except.ok.inj he⟩))
      · exact Or.inl (Or.inr (Or.inr (Or.inl ⟨id, Except.ok.inj he⟩)))
      · refine Or.inr ⟨ctx, prof, ?_⟩
        have hss : s = s0 := Except.ok.inj he
        dsimp only
        rw [hss]
        exact hans
  | error e =>
      exact Or.inl (Or.inr (Or.inr (Or.inr ⟨e, rfl⟩)))

theorem data_append_ne_nil_left (a b : String) (ha : a.data ≠ []) :
    (a ++ b).data ≠ [] := by
  rw [String.data_append]
  intro hx
  exact ha (List.append_eq_nil.mp hx).1

theorem string_append_ne_empty (s t : String) (hs : s.data ≠ []) :
    s ++ t ≠ "" := by
  intro h
  apply hs
  have hd : (s ++ t).data = [] := by rw [h]
  rw [String.data_append] at hd
  exact (List.append_eq_nil.mp hd).1

/-! Claim theorems. -/

/-- C3: `route_query_to_store` cleans the raw router output by stripping
surrounding whitespace and deleting quote characters; an exact registry
key is accepted as is; otherwise a registry storage-location value is
mapped back to its key; otherwise the router fails with `none`; and every
non-`none` router result is a key of `VECTOR_STORE_IDS`. -/
theorem route_query_parsing_and_membership :
    (∀ resp : String,
        vectorStoreKeys.contains (cleanRouterOutput resp) = true →
        parseRouterResponse resp = some (cleanRouterOutput resp)) ∧
    (∀ resp id loc : String, (id, loc) ∈ VECTOR_STORE_IDS →
        cleanRouterOutput resp = loc → parseRouterResponse resp = some id) ∧
    (∀ resp : String,
        vectorStoreKeys.contains (cleanRouterOutput resp) = false →
        (∀ p ∈ VECTOR_STORE_IDS, p.2 ≠ cleanRouterOutput resp) →
        parseRouterResponse resp = none) ∧
    (∀ resp k : String, parseRouterResponse resp = some k →
        k ∈ vectorStoreKeys) ∧
    (∀ (oracle : Nat → Except Exc String) (k : String) (n : Nat),
        route_query_to_store oracle = (.ok (some k), n) →
        k ∈ vectorStoreKeys) :=
  ⟨parse_exact_key, parse_fallback, parse_invalid_none, parse_some_mem,
   route_some_mem⟩

/-- Witness for C3: a quoted, whitespace-padded router response naming a
registry key is cleaned and accepted. -/
theorem route_query_parsing_and_membership_witness :
    parseRouterResponse " \x27university_details\x27 " =
      some (cleanRouterOutput " \x27university_details\x27 ") :=
  route_query_parsing_and_membership.1 " \x27university_details\x27 "
    (by decide)

/-- C8 (code bug): when the routing chain raises a transport error on the
first call, `route_query_to_store` returns `None` after a single attempt;
the tenacity retry never fires because the function body catches every
exception internally and returns `None`, which tenacity treats as
success.  The second conjunct shows a second attempt would have produced
a valid key, so the missing retry is observable. -/
theorem route_query_no_retry_single_attempt :
    route_query_to_store flakyRouterOracle = (.ok none, 1) ∧
    routeAttempt flakyRouterOracle 1 = .ok (some "university_details") := by
  constructor
  · rfl
  · rfl

/-- C9: formatting an empty retrieved set yields the fixed, non-empty
sentence stating that no relevant documents were found. -/
theorem format_retrieved_docs_empty_case :
    format_retrieved_docs [] =
      "No relevant documents found in the specified knowledge base." ∧
    format_retrieved_docs [] ≠ "" := by
  exact ⟨rfl, by decide⟩

/-- C6: a retriever cached under `(vector_store_id, k)` is returned as is
with the whole state — including the `storageLoads` download counter —
unchanged; a vector store cached for an id is likewise served with no S3
read; and after any successful `get_faiss_retriever` or
`load_faiss_vector_store`, repeating the same call returns the very same
cached object and leaves the state unchanged, so durable storage is read
at most once per partition as long as loads succeed. -/
theorem faiss_caches_reused_without_reload (env : Env) (vid : String)
    (k : Nat) (st : RagState) :
    (∀ r, alookup st.retrieverCache (retrieverCacheKey vid k) = some r →
        get_faiss_retriever env vid k st = (.ok r, st)) ∧
    (∀ vs, alookup st.vectorStores vid = some (some vs) →
        load_faiss_vector_store env vid st = (.ok vs, st)) ∧
    (∀ r st1, get_faiss_retriever env vid k st = (.ok r, st1) →
        get_faiss_retriever env vid k st1 = (.ok r, st1)) ∧
    (∀ vs st1, load_faiss_vector_store env vid st = (.ok vs, st1) →
        load_faiss_vector_store env vid st1 = (.ok vs, st1)) := by
  refine ⟨?_, ?_, ?_, ?_⟩
  · intro r h
    exact get_retriever_hit env vid k st r h
  · intro vs h
    exact load_eq_hit env vid st vs h
  · intro r st1 h
    exact get_retriever_hit env vid k st1 r
      (get_retriever_cached_after env vid k st r st1 h)
  · intro vs st1 h
    exact load_eq_hit env vid st1 vs (load_cached_after env vid st vs st1 h)

/-- Witness for C6: with the `university_details` store already cached,
`load_faiss_vector_store` is a pure cache hit: the cached store is
returned and the state, including its download counter, is untouched. -/
theorem faiss_caches_reused_without_reload_witness :
    load_faiss_vector_store envOk "university_details" cachedStateW =
      (.ok storeW, cachedStateW) :=
  (faiss_caches_reused_without_reload envOk "university_details"
      DEFAULT_TOP_K cachedStateW).2.1 storeW rfl

/-- C10: when `load_faiss_vector_store` fails, the exception propagates
with the vector-store cache left exactly as it was — in particular no
`None` sentinel is written, the `_vector_stores[id] = None` statement of
the source being unreachable — and a repeat call for the same id
re-attempts the full load and fails identically instead of serving a
poisoned entry; when it succeeds, the only possible cache change is the
addition of the successfully loaded store under its id. -/
theorem load_faiss_failure_cache_unchanged (env : Env) (vid : String)
    (st : RagState) :
    (∀ e st1, load_faiss_vector_store env vid st = (.error e, st1) →
        st1.vectorStores = st.vectorStores ∧
        ∃ st2, load_faiss_vector_store env vid st1 = (.error e, st2) ∧
          st2.vectorStores = st.vectorStores) ∧
    (∀ vs st1, load_faiss_vector_store env vid st = (.ok vs, st1) →
        st1.vectorStores = st.vectorStores ∨
        st1.vectorStores = (vid, some vs) :: st.vectorStores) := by
  constructor
  · intro e st1 h
    by_cases hhit : ∃ vs0, alookup st.vectorStores vid = some (some vs0)
    · obtain ⟨vs0, hvs0⟩ := hhit
      rw [load_eq_hit env vid st vs0 hvs0, Prod.mk.injEq] at h
      exact Except.noConfusion h.1
    · push_neg at hhit
      rcases hreg : registryLookup vid with _ | loc
      · rw [load_eq_unknown env vid st hhit hreg, Prod.mk.injEq] at h
        obtain ⟨h1, h2⟩ := h
        subst h2
        have he := Except.error.inj h1
        subst he
        exact ⟨rfl, st, load_eq_unknown env vid st hhit hreg, rfl⟩
      · cases hdl : env.s3download loc with
        | ok u =>
          cases u
          cases hfl : env.faissLoad loc with
          | ok vs1 =>
            rw [load_eq_ok env vid st loc vs1 hhit hreg hdl hfl,
              Prod.mk.injEq] at h
            exact Except.noConfusion h.1
          | error e1 =>
            rw [load_eq_faissfail env vid st loc e1 hhit hreg hdl hfl,
              Prod.mk.injEq] at h
            obtain ⟨h1, h2⟩ := h
            subst h2
            have he := Except.error.inj h1
            subst he
            exact ⟨rfl, _,
              load_eq_faissfail env vid _ loc e1 hhit hreg hdl hfl, rfl⟩
        | error f =>
          rw [load_eq_dlfail env vid st loc f hhit hreg hdl,
            Prod.mk.injEq] at h
          obtain ⟨h1, h2⟩ := h
          subst h2
          have he := Except.error.inj h1
          subst he
          exact ⟨rfl, _, load_eq_dlfail env vid _ loc f hhit hreg hdl, rfl⟩
  · intro vs st1 h
    by_cases hhit : ∃ vs0, alookup st.vectorStores vid = some (some vs0)
    · obtain ⟨vs0, hvs0⟩ := hhit
      rw [load_eq_hit env vid st vs0 hvs0, Prod.mk.injEq] at h
      obtain ⟨h1, h2⟩ := h
      subst h2
      exact Or.inl rfl
    · push_neg at hhit
      rcases hreg : registryLookup vid with _ | loc
      · rw [load_eq_unknown env vid st hhit hreg, Prod.mk.injEq] at h
        exact Except.noConfusion h.1
      · cases hdl : env.s3download loc with
        | ok u =>
          cases u
          cases hfl : env.faissLoad loc with
          | ok vs1 =>
            rw [load_eq_ok env vid st loc vs1 hhit hreg hdl hfl,
              Prod.mk.injEq] at h
            obtain ⟨h1, h2⟩ := h
            subst h2
            have he := Except.ok.inj h1
            subst he
            exact Or.inr rfl
          | error e1 =>
            rw [load_eq_faissfail env vid st loc e1 hhit hreg hdl hfl,
              Prod.mk.injEq] at h
            exact Except.noConfusion h.1
        | error f =>
          rw [load_eq_dlfail env vid st loc f hhit hreg hdl,
            Prod.mk.injEq] at h
          exact Except.noConfusion h.1

/-- C1: for every query, profile, `top_k`, state and environment —
including environments in which routing, index loading, retrieval or
answer generation fail — `do_rag_query` returns a string (its result type
is `String`, every internal exception being modelled by `Except` and
caught by the handlers of lines 401-407), and that string is either one
of the five failure-site strings or an answer produced by the answering
chain. -/
theorem do_rag_query_always_returns_string (env : Env) (q : String)
    (p : Option (List (String × String))) (k : Nat) (st : RagState) :
    ∃ ans st1, do_rag_query env q p k st = (ans, st1) ∧
      (isFailureAnswer ans ∨
       ∃ ctx prof, env.answerLLM ctx q prof = .ok ans) :=
  ⟨(do_rag_query env q p k st).1, (do_rag_query env q p k st).2, rfl,
   do_rag_query_shape env q p k st⟩

/-- C4: when the router yields `None`, `do_rag_query` returns the fixed
string explaining that the relevant knowledge base could not be
determined, and the state comes back unchanged: no retriever invocation,
no generator call and no storage load happens for that request. -/
theorem do_rag_query_routing_failure_short_circuit (env : Env) (q : String)
    (p : Option (List (String × String))) (k : Nat) (st : RagState)
    (h : (route_query_to_store env.routerLLM).1 = .ok none) :
    do_rag_query env q p k st = (routingFailureMessage, st) ∧
    (do_rag_query env q p k st).2.retrieverInvocations =
        st.retrieverInvocations ∧
    (do_rag_query env q p k st).2.generatorCalls = st.generatorCalls ∧
    (do_rag_query env q p k st).2.storageLoads = st.storageLoads := by
  have hmain : do_rag_query env q p k st = (routingFailureMessage, st) := by
    unfold do_rag_query do_rag_query_try
    simp only [h]
  exact ⟨hmain, by rw [hmain], by rw [hmain], by rw [hmain]⟩

/-- Witness for C4: a routing LLM that always raises makes the router
return `None`, and `do_rag_query` short-circuits with the fixed message
and an untouched state. -/
theorem do_rag_query_routing_failure_short_circuit_witness :
    do_rag_query envRouteFail "What are the fees?" none 5 initialState =
      (routingFailureMessage, initialState) ∧
    (do_rag_query envRouteFail "What are the fees?" none 5
        initialState).2.retrieverInvocations =
      initialState.retrieverInvocations ∧
    (do_rag_query envRouteFail "What are the fees?" none 5
        initialState).2.generatorCalls = initialState.generatorCalls ∧
    (do_rag_query envRouteFail "What are the fees?" none 5
        initialState).2.storageLoads = initialState.storageLoads :=
  do_rag_query_routing_failure_short_circuit envRouteFail
    "What are the fees?" none 5 initialState rfl

/-- C2: when routing succeeds with `chosen`, and the caches hold only
entries matching what a load for `chosen` would produce (which is how
real executions populate them), then the batch of chunks handed to the
answer-generation chain — when one is handed at all — is the `top_k`
truncation of the single chosen partition ranking: at most `top_k`
chunks, all drawn from that one partition. -/
theorem do_rag_query_generator_chunk_bound (env : Env) (q : String)
    (p : Option (List (String × String))) (top_k : Nat) (st : RagState)
    (chosen : String)
    (hroute : (route_query_to_store env.routerLLM).1 = .ok (some chosen))
    (hrc : ∀ r, alookup st.retrieverCache (retrieverCacheKey chosen top_k) =
        some r →
        ∃ vs, storeOf env chosen = .ok vs ∧
          r = VectorStoreRetriever.mk vs.search top_k)
    (hvs : ∀ vs0, alookup st.vectorStores chosen = some (some vs0) →
        storeOf env chosen = .ok vs0) :
    (do_rag_query env q p top_k st).2.generatorCalls = st.generatorCalls ∨
    ∃ docs vs ranked,
      (do_rag_query env q p top_k st).2.generatorCalls =
        st.generatorCalls ++ [docs] ∧
      storeOf env chosen = .ok vs ∧ vs.search q = .ok ranked ∧
      docs = ranked.take top_k ∧ docs.length ≤ top_k := by
  unfold do_rag_query do_rag_query_try
  simp only [hroute]
  cases hq : (chosen == "") with
  | true => exact Or.inl rfl
  | false =>
    simp only [Bool.false_eq_true, if_false]
    rcases hget : get_faiss_retriever env chosen top_k st with ⟨rres, st1⟩
    have hlogs := get_preserves_logs env chosen top_k st
    rw [hget] at hlogs
    cases rres with
    | error e =>
        simp only [hget]
        exact Or.inl hlogs.1
    | ok r =>
        obtain ⟨vs, hst, hsearch, hk⟩ :=
          get_retriever_ok_spec env chosen top_k st hrc hvs r st1 hget
        simp only [hget]
        cases hs : r.search q with
        | error e =>
            cases e <;> simp only [hs] <;> exact Or.inl hlogs.1
        | ok ranked =>
            simp only [hs]
            refine Or.inr ⟨ranked.take top_k, vs, ranked, ?_, hst, ?_, rfl, ?_⟩
            · rw [← hk]
              cases ha : env.answerLLM
                  (format_retrieved_docs (ranked.take r.k)) q
                  (env.jsonDumps (p.getD [])) with
              | ok response =>
                  simp only [ha]
                  rw [hlogs.1]
              | error e =>
                  simp only [ha]
                  rw [hlogs.1]
            · rw [← hsearch]
              exact hs
            · rw [List.length_take]
              exact min_le_left _ _

/-- Witness for C2: a healthy environment routing to
`university_details` from an empty-cache state; the vacuous cache
hypotheses hold because both caches are empty. -/
theorem do_rag_query_generator_chunk_bound_witness :
    (do_rag_query envOk "q" none 5 initialState).2.generatorCalls =
        initialState.generatorCalls ∨
    ∃ docs vs ranked,
      (do_rag_query envOk "q" none 5 initialState).2.generatorCalls =
        initialState.generatorCalls ++ [docs] ∧
      storeOf envOk "university_details" = .ok vs ∧
      vs.search "q" = .ok ranked ∧
      docs = ranked.take 5 ∧ docs.length ≤ 5 :=
  do_rag_query_generator_chunk_bound envOk "q" none 5 initialState
    "university_details" rfl (fun _ h => Option.noConfusion h)
    (fun _ h => Option.noConfusion h)

/-- C5 counterexample: with routing and retrieval succeeding and the
answering chain raising `Exception("boom")`, `do_rag_query` returns the
line-407 string with the raw exception text appended after `Details:`,
so a raw exception message does cross the `do_rag_query` boundary,
contrary to the claim. -/
theorem do_rag_query_error_details_leak :
    (do_rag_query envGenFail "q" none 5 initialState).1 =
      unexpectedErrorMessage (.genericError "boom") ∧
    strContains (do_rag_query envGenFail "q" none 5 initialState).1
      "boom" = true := by
  exact ⟨by decide, by decide⟩

/-- C5 (amended): every failure-path string of `do_rag_query` is
non-empty and begins with a fixed human-readable explanation, and every
result is either such a failure string or an answering-chain output —
but the load-failure and unexpected-error strings (lines 404 and 407)
embed the raw exception message after `Details:`, and the
retrieval-failure strings embed the internal partition id. -/
theorem do_rag_query_failure_messages_nonempty :
    (∀ ans, isFailureAnswer ans → ans ≠ "") ∧
    (∀ (env : Env) (q : String) (p : Option (List (String × String)))
        (k : Nat) (st : RagState),
        isFailureAnswer (do_rag_query env q p k st).1 ∨
        ∃ ctx prof, env.answerLLM ctx q prof =
          .ok (do_rag_query env q p k st).1) := by
  constructor
  · intro ans h
    rcases h with rfl | ⟨id, rfl⟩ | ⟨id, rfl⟩ | ⟨e, rfl⟩
    · decide
    · exact string_append_ne_empty _ _
        (data_append_ne_nil_left _ _ (by decide))
    · exact string_append_ne_empty _ _
        (data_append_ne_nil_left _ _ (by decide))
    · cases e <;> exact string_append_ne_empty _ _ (by decide)
  · exact fun env q p k st => do_rag_query_shape env q p k st

/-- Witness for C5 (amended): the routing-failure message is one of the
failure shapes and is non-empty. -/
theorem do_rag_query_failure_messages_nonempty_witness :
    routingFailureMessage ≠ "" :=
  do_rag_query_failure_messages_nonempty.1 routingFailureMessage
    (Or.inl rfl)

/-- C7 counterexample: routing succeeds for `university_details`, whose
index artifacts are missing from S3 (`NoSuchKey`); `do_rag_query`
returns the generic load-failure string of line 404 — the exception text
appended after `Details:` is the only place the partition is named — and
not the partition-specific line-351 message the claim requires. -/
theorem do_rag_query_load_failure_generic_counterexample :
    (do_rag_query envLoadFail "q" none 5 initialState).1 =
      loadFailureMessage (.fileNotFoundError
        "FAISS files not found for \x27university_details\x27 at s3://bkt/vs_processed_data_university/") ∧
    (do_rag_query envLoadFail "q" none 5 initialState).1 ≠
      kbUnavailableMessage "university_details" := by
  exact ⟨by decide, by decide⟩

/-- C7 (amended): after successful routing to `chosen`, a failure to
load the partition index escapes `get_faiss_retriever` — which line 340
places OUTSIDE the inner try of lines 347-354 — to the outer handlers,
producing the generic load-failure or unexpected-error string (with the
exception details appended), not the partition-specific message; the
line-351 message naming the partition as currently unavailable is
produced only when the retriever invocation itself raises
`FileNotFoundError`. -/
theorem do_rag_query_load_failure_message_shape (env : Env) (q : String)
    (p : Option (List (String × String))) (top_k : Nat) (st : RagState)
    (chosen : String)
    (hroute : (route_query_to_store env.routerLLM).1 = .ok (some chosen))
    (hne : (chosen == "") = false) :
    (∀ e st1, get_faiss_retriever env chosen top_k st = (.error e, st1) →
        do_rag_query env q p top_k st = (outerExceptHandler e, st1)) ∧
    (∀ r st1 m, get_faiss_retriever env chosen top_k st = (.ok r, st1) →
        r.search q = .error (.fileNotFoundError m) →
        do_rag_query env q p top_k st =
          (kbUnavailableMessage chosen,
           { st1 with retrieverInvocations :=
               st1.retrieverInvocations + 1 })) := by
  constructor
  · intro e st1 hget
    unfold do_rag_query do_rag_query_try
    simp only [hroute, hne, Bool.false_eq_true, if_false, hget]
  · intro r st1 m hget hsearch
    unfold do_rag_query do_rag_query_try
    simp only [hroute, hne, Bool.false_eq_true, if_false, hget, hsearch]

/-- Witness for C7 (amended): with `university_details` artifacts
missing from S3, the returned string is the one the outer handler builds
from the `FileNotFoundError`. -/
theorem do_rag_query_load_failure_message_shape_witness :
    do_rag_query envLoadFail "q" none 5 initialState =
      (outerExceptHandler (.fileNotFoundError
        "FAISS files not found for \x27university_details\x27 at s3://bkt/vs_processed_data_university/"),
       { initialState with storageLoads := 1 }) :=
  (do_rag_query_load_failure_message_shape envLoadFail "q" none 5
      initialState "university_details" rfl rfl).1 _ _ rfl

/-- Witness for C10: loading an unregistered id fails with the
`ValueError` of line 97, leaving the cache unchanged and failing
identically when retried. -/
theorem load_faiss_failure_cache_unchanged_witness :
    initialState.vectorStores = initialState.vectorStores ∧
    ∃ st2, load_faiss_vector_store envOk "nonexistent_partition" initialState = (.error (.valueError (unknownIdMessage "nonexistent_partition")), st2) ∧ st2.vectorStores = initialState.vectorStores :=
  (load_faiss_failure_cache_unchanged envOk "nonexistent_partition"
      initialState).1 (.valueError (unknownIdMessage "nonexistent_partition"))
    initialState rfl

end RagUtils
